import Mathlib

/-!
Shallow embedding of the ddwt tire-inventory reconciliation pipeline.

The embedding covers the HTML stock-table parser, the record deduplicator,
the cross-source matcher, the merge and derivation engine, the search
facade and the order-placement operation, translated from
src/services/InventoryService.js and src/components/ProductList.jsx.
HTML documents are abstracted to their table structure (rows of cells,
where a cell carries an optional text-input value and a text content);
the remaining logic is translated statement by statement.  JavaScript
numbers produced by the digit-stripping extraction are modelled as
integers, JavaScript strings as Lean strings, and absent object fields
read through a fallback as the fallback value.
-/

namespace DDWT

/-- Does the pattern (second list) occur at the head of the first list? -/
def startsWithSeq : List Char → List Char → Bool
  | _, [] => true
  | [], _ :: _ => false
  | a :: as, b :: bs => a == b && startsWithSeq as bs

/-- Does the pattern (second list) occur contiguously anywhere in the first
list?  Embedding of JavaScript String.prototype.includes on the character
sequence. -/
def includesSeq : List Char → List Char → Bool
  | [], pat => pat.isEmpty
  | a :: as, pat => startsWithSeq (a :: as) pat || includesSeq as pat

/-- JavaScript text.includes(pat). -/
def strIncludes (s pat : String) : Bool :=
  includesSeq s.data pat.data

/-- JavaScript String.prototype.trim: drop whitespace from both ends. -/
def jsTrim (s : String) : String :=
  ((s.data.dropWhile Char.isWhitespace).reverse.dropWhile Char.isWhitespace).reverse.asString

/-- JavaScript String.prototype.toLowerCase. -/
def jsLower (s : String) : String :=
  (s.data.map Char.toLower).asString

/-- Read a digit sequence as a number, the empty sequence reading as 0
(as Number does on the empty string). -/
def digitsToNat (cs : List Char) : Nat :=
  cs.foldl (fun n c => n * 10 + (c.toNat - 48)) 0

/-- Modelled from the spec: normalizeSize from src/utils/formatters is not
part of the provided sources; the spec (section 4.3) requires it to strip
all non-numeric characters, yielding the bare-digits representation of a
size string. -/
def normalizeSize (s : String) : String :=
  (s.data.filter Char.isDigit).asString

/-- Embedding of Number(text.replace(/[^0-9]/g, "")) || 0: strip every
non-digit character (signs and separators included) and read the remaining
digit string as a number, with the empty digit string reading as 0.  The
result is returned as an integer to record that the construction can never
produce a negative value. -/
def parseNum (s : String) : Int :=
  (digitsToNat (s.data.filter Char.isDigit) : Nat)

/-- One table cell: an optional text-input value and the text content. -/
structure Cell where
  inputValue : Option String
  textContent : String
deriving DecidableEq, Repr

/-- A stock record as produced by parseShopData, with the identifier
fields read by the cross-source matcher.  Fields that a given producer
does not set are the empty string or zero, matching the coercions the
JavaScript reader applies to absent fields. -/
structure ShopItem where
  brand : String
  model : String
  size : String
  partNo : String
  internalCode : String
  itId : String
  stId : String
  type : String
  supplyPrice : Int
  factoryPrice : Int
  totalStock : Int
  discountRate : Int
deriving DecidableEq, Repr

/-- getValue from parseShopData: prefer the input value of the cell,
fall back to its text content; an absent cell reads as the empty string. -/
def getValue (c : Option Cell) : String :=
  match c with
  | none => ""
  | some cell =>
    match cell.inputValue with
    | some v => jsTrim v
    | none => jsTrim cell.textContent

/-- getText from parseShopData: trimmed text content of the cell, empty for
an absent cell. -/
def getText (c : Option Cell) : String :=
  match c with
  | none => ""
  | some cell => jsTrim cell.textContent

/-- The discontinuation marker looked for in the status columns. -/
def discontinuedMark : String := "단종"

/-- Embedding of the per-row body of parseShopData (primary variant of
src/services/InventoryService.js): discard rows with fewer than 5 columns,
exclude rows whose last or second-to-last column mentions the
discontinuation marker, and otherwise extract the record fields from the
fixed column layout. -/
def parseRow (cols : List Cell) : Option ShopItem :=
  if cols.length < 5 then none
  else if (strIncludes (getText (cols.get? (cols.length - 1))) discontinuedMark
      || strIncludes (getText (cols.get? (cols.length - 2))) discontinuedMark) = true then
    none
  else
    some
      { brand := getText (cols.get? 1)
        model := getText (cols.get? 2)
        size := getText (cols.get? 4)
        partNo := getValue (cols.get? 5)
        internalCode := getText (cols.get? 3)
        itId := ""
        stId := ""
        type := ""
        supplyPrice := parseNum (getValue (cols.get? 10))
        factoryPrice := 0
        totalStock := parseNum (getText (cols.get? 9))
        discountRate := 0 }

/-- The deduplication key: the four key fields joined with a dash, exactly
as the template literal in parseShopData builds it. -/
def dedupKey (i : ShopItem) : String :=
  i.brand ++ "-" ++ i.model ++ "-" ++ i.size ++ "-" ++ i.partNo

/-- The forEach loop of the deduplication pass: walk the items carrying the
set of keys already seen, keeping an item only when its key is new. -/
def dedupGo (seen : List String) : List ShopItem → List ShopItem
  | [] => []
  | x :: xs =>
    if seen.contains (dedupKey x) then dedupGo seen xs
    else x :: dedupGo (dedupKey x :: seen) xs

/-- Deduplicate a parsed item list, first occurrence winning. -/
def dedupItems (items : List ShopItem) : List ShopItem :=
  dedupGo [] items

/-- parseShopData: parse each located row, drop excluded rows, then
deduplicate.  An input with no rows yields the empty list. -/
def parseShopData (rows : List (List Cell)) : List ShopItem :=
  if rows.length = 0 then []
  else dedupItems (rows.filterMap parseRow)

/-- Specification-shaped deduplicator: keep the head and recursively drop
every later item carrying the same key.  Used to state what the fold with
a seen-set computes. -/
def keepFirstByKey : List ShopItem → List ShopItem
  | [] => []
  | x :: xs =>
    x :: keepFirstByKey (xs.filter (fun y => !(dedupKey y == dedupKey x)))
termination_by l => l.length
decreasing_by
  exact Nat.lt_succ_of_le (List.length_filter_le _ xs)

/-- A ledger row as consumed by loadData: the Google-sheet source is not
part of the provided sources, so the record carries exactly the fields the
merge reads from it; a sheet row may lack the DOT list, read through a
fallback to the empty list. -/
structure SheetEntry where
  brand : String
  model : String
  size : String
  code : String
  factoryPrice : Int
  dotList : Option (List String)
deriving DecidableEq, Repr

/-- JavaScript a || b on strings: the empty string is falsy. -/
def jsOrStr (a b : String) : String :=
  if a == "" then b else a

/-- findInventoryMatch from loadData: first stock record whose trimmed
partNo, itId or stId equals the trimmed sheet code. -/
def findInventoryMatch (productData : List ShopItem) (sheetCode : String) : Option ShopItem :=
  let sCode := jsTrim sheetCode
  productData.find? (fun p =>
    jsTrim p.partNo == sCode || jsTrim p.itId == sCode || jsTrim p.stId == sCode)

/-- The merged product record produced by loadData. -/
structure MergedProduct where
  brand : String
  model : String
  size : String
  partNo : String
  factoryPrice : Int
  dotList : List String
  totalStock : Int
  supplyPrice : Int
  discountRate : Int
  internalCode : String
deriving DecidableEq, Repr

/-- The merge body of loadData for one sheet entry: look up the stock
match and build the merged record with the field priorities of the code. -/
def mergeOne (productData : List ShopItem) (s : SheetEntry) : MergedProduct :=
  let shopMatch := findInventoryMatch productData s.code
  { brand := jsOrStr s.brand ((shopMatch.map ShopItem.brand).getD "")
    model := jsOrStr s.model ((shopMatch.map ShopItem.model).getD "")
    size := match shopMatch with | some m => m.size | none => s.size
    partNo := s.code
    factoryPrice := s.factoryPrice
    dotList := s.dotList.getD []
    totalStock := match shopMatch with | some m => m.totalStock | none => 0
    supplyPrice := match shopMatch with | some m => m.supplyPrice | none => 0
    discountRate := 0
    internalCode := s.code }

/-- The pure core of loadData (sheet-first variant): filter the sheet rows
by normalized-size containment and positive factory price, merge each
surviving row with its stock match, keep only merged records with positive
factory price, and sort by total stock descending (stable sort, as the
runtime guarantees). -/
def loadDataMergeCore (sheetData : List SheetEntry) (productData : List ShopItem)
    (sizeQuery : String) : List MergedProduct :=
  let searchSizeNorm := normalizeSize sizeQuery
  let filteredSheetEntries := sheetData.filter (fun d =>
    strIncludes (normalizeSize d.size) searchSizeNorm && decide (0 < d.factoryPrice))
  (filteredSheetEntries.map (mergeOne productData)).filter
    (fun p => decide (0 < p.factoryPrice))

/-- loadData as a whole: the merged list, default-sorted by total stock
descending. -/
def loadDataMerge (sheetData : List SheetEntry) (productData : List ShopItem)
    (sizeQuery : String) : List MergedProduct :=
  (loadDataMergeCore sheetData productData sizeQuery).mergeSort
    (fun a b => decide (b.totalStock ≤ a.totalStock))

/-- The discounted-price derivation used wherever the UI shows a price:
Math.floor(factoryPrice * (1 - discountRate / 100)). -/
def discountedPrice (factoryPrice discountRate : Int) : Int :=
  ⌊(factoryPrice : ℚ) * (1 - (discountRate : ℚ) / 100)⌋

/-- A catalog product held by the service (shape of the mock data set). -/
structure Product where
  id : String
  brand : String
  model : String
  size : String
  type : String
  season : String
deriving DecidableEq, Repr

/-- One inventory record of the service store. -/
structure InvRecord where
  productId : String
  type : String
  stockQty : Int
  reorderPoint : Int
  cost : Int
deriving DecidableEq, Repr

/-- The in-memory state of the inventory service. -/
structure ServiceState where
  products : List Product
  inventory : List InvRecord
deriving DecidableEq, Repr

/-- generateMockShopData: one mock shop item per stored product, with the
summed stock of its inventory records and a randomly generated part
number; the random draw is modelled as an oracle indexed by position. -/
def generateMockShopData (st : ServiceState) (rand : Nat → Nat) : List ShopItem :=
  st.products.enum.map (fun ip =>
    let p := ip.2
    let productInv := st.inventory.filter (fun i => i.productId == p.id)
    let totalStock := productInv.foldl (fun sum i => sum + i.stockQty) 0
    { brand := p.brand
      model := p.model
      size := p.size
      partNo := "THH" ++ toString (rand ip.1 % 9000000 + 1000000)
      internalCode := ""
      itId := ""
      stId := ""
      type := p.type
      supplyPrice := 0
      factoryPrice := 0
      totalStock := totalStock
      discountRate := 0 })

/-- The login-page detection of fetchShopItems. -/
def isLoginPage (text : String) : Bool :=
  strIncludes text "login" || strIncludes text "로그인" ||
    (strIncludes text "<!DOCTYPE html>" && !(strIncludes text "<table"))

/-- A fetched document, abstracted to its raw text (inspected by the
login-page check) and the table rows the DOM parser locates in it.  A
non-table document has no rows. -/
structure HtmlDoc where
  rawText : String
  rows : List (List Cell)

/-- Outcome of the network fetch: a failure (error, timeout or non-ok
status, all caught by the same handler) or a successfully read document. -/
inductive FetchOutcome where
  | failure : FetchOutcome
  | success : HtmlDoc → FetchOutcome

/-- The result of fetchShopItems as a function of the fetch outcome and
the service state: failures yield the empty list, a login-page response
falls back to the mock data set, anything else is parsed. -/
def fetchShopItems (st : ServiceState) (rand : Nat → Nat) : FetchOutcome → List ShopItem
  | .failure => []
  | .success doc =>
    if isLoginPage doc.rawText then generateMockShopData st rand
    else parseShopData doc.rows

/-- Search criteria: absent entries model missing object fields. -/
structure Criteria where
  query : Option String
  brand : Option String
  type : Option String
  season : Option String
deriving DecidableEq, Repr

/-- The free-text part of the search filter: an empty query matches
everything, otherwise the lowercased query must occur in the size as
stored, in the lowercased model, or in the lowercased brand. -/
def searchMatchesQuery (p : Product) (lowerQuery : String) : Bool :=
  lowerQuery == "" || strIncludes p.size lowerQuery
    || strIncludes (jsLower p.model) lowerQuery
    || strIncludes (jsLower p.brand) lowerQuery

/-- An exact-or-All criterion: a missing or empty or All selection
matches every value. -/
def matchesChoice (field : String) (sel : Option String) : Bool :=
  match sel with
  | none => true
  | some v => v == "" || v == "All" || field == v

/-- A search result row: the product enriched with inventory summary. -/
structure EnrichedProduct where
  product : Product
  storeStock : Int
  warehouseStock : Int
  price : Int
  totalStock : Int
deriving DecidableEq, Repr

/-- Math.round for the retail-price derivation (half rounds up). -/
def jsRound (q : ℚ) : Int := ⌊q + 1 / 2⌋

/-- The filter-and-enrich stage of the search operation: keep the
products passing the query and the exact-match criteria, and attach the
inventory summary to each. -/
def searchHits (st : ServiceState) (c : Criteria) : List EnrichedProduct :=
  let lowerQuery := jsLower (c.query.getD "")
  (st.products.filter (fun p =>
      searchMatchesQuery p lowerQuery && matchesChoice p.brand c.brand
        && matchesChoice p.type c.type && matchesChoice p.season c.season)).map (fun p =>
    let productInv := st.inventory.filter (fun i => i.productId == p.id)
    let storeStock := ((productInv.find? (fun i => i.type == "store")).map InvRecord.stockQty).getD 0
    let warehouseStock := ((productInv.find? (fun i => i.type == "warehouse")).map InvRecord.stockQty).getD 0
    let price := match productInv.head? with
      | none => 0
      | some r => if r.cost == 0 then 0 else jsRound ((r.cost : ℚ) * 12 / 10)
    { product := p
      storeStock := storeStock
      warehouseStock := warehouseStock
      price := price
      totalStock := storeStock + warehouseStock })

/-- The smart-recommendation comparator: store stock descending, then
price ascending. -/
def searchCompare (a b : EnrichedProduct) : Bool :=
  if a.storeStock == b.storeStock then decide (a.price ≤ b.price)
  else decide (b.storeStock < a.storeStock)

/-- The search operation: filter by query and the exact-match criteria,
enrich each hit with its inventory summary, and sort by store stock
descending then price ascending (stable). -/
def search (st : ServiceState) (c : Criteria) : List EnrichedProduct :=
  (searchHits st c).mergeSort searchCompare

/-- The two order-placement domain errors. -/
inductive OrderError where
  | recordNotFound : OrderError
  | insufficientStock : OrderError
deriving DecidableEq, Repr

/-- The in-place decrement of the matched inventory record: the first
record with the requested product and source loses qty units, every other
record is untouched. -/
def decrementFirst (pid src : String) (qty : Int) : List InvRecord → List InvRecord
  | [] => []
  | r :: rs =>
    if r.productId == pid && r.type == src then
      { r with stockQty := r.stockQty - qty } :: rs
    else r :: decrementFirst pid src qty rs

/-- placeOrder: find the inventory record for the product and source;
missing record and insufficient stock abort with their domain errors and
leave the inventory unchanged; otherwise the stock is decremented and the
returned flag records whether the advisory low-stock alert fired.  The
second component is the inventory state after the call. -/
def placeOrder (inv : List InvRecord) (productId : String) (qty : Int)
    (source : String) : Except OrderError Bool × List InvRecord :=
  match inv.find? (fun i => i.productId == productId && i.type == source) with
  | none => (.error .recordNotFound, inv)
  | some r =>
    if r.stockQty < qty then (.error .insufficientStock, inv)
    else (.ok (decide (r.stockQty - qty ≤ r.reorderPoint)),
      decrementFirst productId source qty inv)

/-! ### Helper lemmas -/

/-- The seen-set of the deduplication walk only matters up to membership. -/
theorem dedupGo_congr (xs : List ShopItem) : ∀ (s1 s2 : List String),
    (∀ k, s1.contains k = s2.contains k) → dedupGo s1 xs = dedupGo s2 xs := by
  induction xs with
  | nil => intro s1 s2 _; rfl
  | cons x xs ih =>
    intro s1 s2 h
    simp only [dedupGo, h (dedupKey x)]
    cases hx : s2.contains (dedupKey x) with
    | true => exact ih s1 s2 h
    | false =>
      simp only [Bool.false_eq_true, if_false, List.cons.injEq, true_and]
      exact ih _ _ (fun k => by simp only [List.contains_cons, h k])

/-- Adding a key to the seen-set is the same as filtering every item with
that key out of the remaining input. -/
theorem dedupGo_key_filter (xs : List ShopItem) : ∀ (k : String) (seen : List String),
    dedupGo (k :: seen) xs = dedupGo seen (xs.filter (fun y => !(dedupKey y == k))) := by
  induction xs with
  | nil => intro k seen; rfl
  | cons x xs ih =>
    intro k seen
    by_cases hk : dedupKey x = k
    · simp only [dedupGo, List.filter_cons, hk, List.contains_cons, beq_self_eq_true,
        Bool.not_true, Bool.true_or, if_true, Bool.false_eq_true, if_false]
      exact ih k seen
    · have hk2 : (dedupKey x == k) = false := beq_eq_false_iff_ne.mpr hk
      by_cases hs : seen.contains (dedupKey x) = true
      · simp only [dedupGo, List.filter_cons, List.contains_cons, hk2, hs, Bool.not_false,
          Bool.false_or, if_true]
        exact ih k seen
      · have hs2 : seen.contains (dedupKey x) = false := by
          cases h : seen.contains (dedupKey x) with
          | true => exact absurd h hs
          | false => rfl
        have hks : (k == dedupKey x) = false := beq_eq_false_iff_ne.mpr (Ne.symm hk)
        simp only [dedupGo, List.filter_cons, List.contains_cons, hk2, hs2, hks, Bool.not_false,
          Bool.false_or, Bool.false_eq_true, if_false, if_true, List.cons.injEq, true_and]
        have swap : dedupGo (dedupKey x :: k :: seen) xs
            = dedupGo (k :: dedupKey x :: seen) xs :=
          dedupGo_congr xs _ _ (fun q => by
            simp only [List.contains_cons, Bool.or_left_comm])
        rw [swap, ih k (dedupKey x :: seen)]

/-- The deduplication walk returns a sublist of its input. -/
theorem dedupGo_sublist (xs : List ShopItem) :
    ∀ seen, List.Sublist (dedupGo seen xs) xs := by
  induction xs with
  | nil => intro seen; exact List.Sublist.refl []
  | cons x xs ih =>
    intro seen
    simp only [dedupGo]
    cases hx : seen.contains (dedupKey x) with
    | true => exact (ih seen).cons x
    | false => exact (ih (dedupKey x :: seen)).cons₂ x

/-- parseNum never produces a negative value. -/
theorem parseNum_nonneg (s : String) : 0 ≤ parseNum s :=
  Int.natCast_nonneg _

/-- Decrementing the first matching record of a decomposed inventory. -/
theorem decrementFirst_append (pid src : String) (qty : Int) (r : InvRecord)
    (bs : List InvRecord) : ∀ as : List InvRecord,
    (∀ a ∈ as, (a.productId == pid && a.type == src) = false) →
    (r.productId == pid && r.type == src) = true →
    decrementFirst pid src qty (as ++ r :: bs)
      = as ++ { r with stockQty := r.stockQty - qty } :: bs := by
  intro as
  induction as with
  | nil =>
    intro _ hr
    simp only [List.nil_append, decrementFirst, hr, if_true]
  | cons a as ih =>
    intro h hr
    have ha := h a (List.mem_cons_self a as)
    simp only [List.cons_append, decrementFirst, ha, Bool.false_eq_true, if_false,
      List.cons.injEq, true_and]
    exact ih (fun b hb => h b (List.mem_cons_of_mem a hb)) hr

/-! ### Concrete records used by witnesses and counterexamples -/

/-- A text-only table cell. -/
def tCell (s : String) : Cell := { inputValue := none, textContent := s }

/-- A cell holding a text input. -/
def iCell (s : String) : Cell := { inputValue := some s, textContent := "" }

/-- A shop item with every field empty or zero, a base for concrete
records. -/
def blankItem : ShopItem :=
  { brand := "", model := "", size := "", partNo := "", internalCode := "", itId := "",
    stId := "", type := "", supplyPrice := 0, factoryPrice := 0, totalStock := 0,
    discountRate := 0 }

/-- A live table row of the demo document: brand A, in stock. -/
def demoRowA : List Cell :=
  [tCell "1", tCell "BrandA", tCell "ModelA", tCell "PA-1", tCell "245/45R18",
   iCell "U100", tCell "", tCell "", tCell "", tCell "4개", iCell "100,000", tCell "판매중"]

/-- A discontinued table row of the demo document: the status column
carries the discontinuation marker. -/
def demoRowB : List Cell :=
  [tCell "2", tCell "BrandB", tCell "ModelB", tCell "PB-1", tCell "225/60R17",
   iCell "U200", tCell "", tCell "", tCell "", tCell "8개", iCell "90,000", tCell "단종"]

/-- A second live table row of the demo document. -/
def demoRowC : List Cell :=
  [tCell "3", tCell "BrandC", tCell "ModelC", tCell "PC-1", tCell "195/65R15",
   iCell "U300", tCell "", tCell "", tCell "", tCell "2개", iCell "80,000", tCell "판매중"]

/-- The stock record parseRow extracts from the first demo row. -/
def parsedItemA : ShopItem :=
  { blankItem with
    brand := "BrandA"
    model := "ModelA"
    size := "245/45R18"
    partNo := "U100"
    internalCode := "PA-1"
    supplyPrice := 100000
    totalStock := 4 }

/-! ### Claim theorems -/

/-- Claim C1: every merged product in the sequence produced by the
loadData merge has a positive factory price; records without a valid
ledger price are excluded rather than defaulted to zero. -/
theorem loadData_factoryPrice_pos (sheetData : List SheetEntry)
    (productData : List ShopItem) (sizeQuery : String) (p : MergedProduct)
    (h : p ∈ loadDataMerge sheetData productData sizeQuery) :
    0 < p.factoryPrice := by
  unfold loadDataMerge at h
  rw [List.mem_mergeSort] at h
  unfold loadDataMergeCore at h
  rw [List.mem_filter] at h
  simpa using h.2

/-- Witness for C1 at a concrete sheet entry with factory price 100. -/
theorem loadData_factoryPrice_pos_witness :
    0 < (mergeOne []
      { brand := "B", model := "M", size := "245", code := "X1",
        factoryPrice := 100, dotList := none }).factoryPrice := by
  apply loadData_factoryPrice_pos
    [{ brand := "B", model := "M", size := "245", code := "X1",
       factoryPrice := 100, dotList := none }] [] ""
  unfold loadDataMerge
  rw [List.mem_mergeSort]
  decide

/-- Claim C2: the derived discounted price is the floor of
factoryPrice * (1 - discountRate / 100); since the divisor is positive,
that floor is the floor integer division by 100.  In particular a factory
price of 100000 with a 15 percent discount yields 85000, and a factory
price of 7 with a 50 percent discount yields 3 (truncation, not
rounding). -/
theorem discountedPrice_floor_spec :
    (∀ fp dr : Int, discountedPrice fp dr = Int.fdiv (fp * (100 - dr)) 100) ∧
    discountedPrice 100000 15 = 85000 ∧ discountedPrice 7 50 = 3 := by
  have key : ∀ fp dr : Int, discountedPrice fp dr = Int.fdiv (fp * (100 - dr)) 100 := by
    intro fp dr
    unfold discountedPrice
    have h : (fp : ℚ) * (1 - (dr : ℚ) / 100)
        = ((fp * (100 - dr) : ℤ) : ℚ) / ((100 : ℕ) : ℚ) := by
      push_cast
      ring
    rw [h, Rat.floor_intCast_div_natCast, Int.fdiv_eq_ediv _ (by norm_num)]
    norm_num
  refine ⟨key, ?_, ?_⟩
  · rw [key]
    decide
  · rw [key]
    decide

/-- Claim C3: the merge applies the fixed field-priority table.  Brand and
model take the sheet (ledger) value when nonempty, else the matched stock
value; size takes the stock value exactly when a match exists; total stock
and supply price take the stock value when matched and are zero otherwise;
the DOT list is the sheet value or empty; the discount rate starts at 0. -/
theorem merge_field_priority (pd : List ShopItem) (s : SheetEntry) :
    (∀ m : ShopItem, findInventoryMatch pd s.code = some m →
      (mergeOne pd s).brand = (if s.brand = "" then m.brand else s.brand) ∧
      (mergeOne pd s).model = (if s.model = "" then m.model else s.model) ∧
      (mergeOne pd s).size = m.size ∧
      (mergeOne pd s).totalStock = m.totalStock ∧
      (mergeOne pd s).supplyPrice = m.supplyPrice) ∧
    (findInventoryMatch pd s.code = none →
      (mergeOne pd s).brand = (if s.brand = "" then "" else s.brand) ∧
      (mergeOne pd s).model = (if s.model = "" then "" else s.model) ∧
      (mergeOne pd s).size = s.size ∧
      (mergeOne pd s).totalStock = 0 ∧
      (mergeOne pd s).supplyPrice = 0) ∧
    (mergeOne pd s).dotList = s.dotList.getD [] ∧
    (mergeOne pd s).discountRate = 0 := by
  refine ⟨?_, ?_, ?_, ?_⟩
  · intro m hm
    simp [mergeOne, jsOrStr, hm, beq_iff_eq]
  · intro hm
    simp [mergeOne, jsOrStr, hm, beq_iff_eq]
  · cases hm : findInventoryMatch pd s.code <;> simp [mergeOne, hm]
  · cases hm : findInventoryMatch pd s.code <;> simp [mergeOne, hm]

/-- The stock record used by the C3 witness. -/
def wStockItem : ShopItem :=
  { blankItem with
    brand := "StockBrand"
    model := "StockModel"
    size := "225/45R17 91W"
    partNo := "K1"
    supplyPrice := 90000
    totalStock := 6 }

/-- The sheet entry used by the C3 witness: empty brand, so the merged
brand falls back to the stock brand. -/
def wSheetEntry : SheetEntry :=
  { brand := ""
    model := "SheetModel"
    size := "2254517"
    code := "K1"
    factoryPrice := 120000
    dotList := some ["2424"] }

/-- Witness for C3: the field table evaluated at one matched merge. -/
theorem merge_field_priority_witness :
    ((mergeOne [wStockItem] wSheetEntry).brand
        = (if wSheetEntry.brand = "" then wStockItem.brand else wSheetEntry.brand) ∧
      (mergeOne [wStockItem] wSheetEntry).model
        = (if wSheetEntry.model = "" then wStockItem.model else wSheetEntry.model) ∧
      (mergeOne [wStockItem] wSheetEntry).size = wStockItem.size ∧
      (mergeOne [wStockItem] wSheetEntry).totalStock = wStockItem.totalStock ∧
      (mergeOne [wStockItem] wSheetEntry).supplyPrice = wStockItem.supplyPrice) ∧
    (mergeOne [wStockItem] wSheetEntry).dotList = wSheetEntry.dotList.getD [] ∧
    (mergeOne [wStockItem] wSheetEntry).discountRate = 0 :=
  ⟨(merge_field_priority [wStockItem] wSheetEntry).1 wStockItem (by decide),
   (merge_field_priority [wStockItem] wSheetEntry).2.2⟩

/-- A stock record whose alternate identifier (itId) carries the code C7
while its unique code is P1. -/
def altMatchItem : ShopItem :=
  { blankItem with brand := "BrandAlt", partNo := "P1", itId := "C7" }

/-- A stock record whose unique code (partNo) is C7. -/
def priMatchItem : ShopItem :=
  { blankItem with brand := "BrandPri", partNo := "C7" }

/-- Counterexample to C4: a stock record whose unique code equals the
trimmed ledger code exists (the second one), yet the matcher selects the
earlier record, which matches only through the alternate identifier — the
primary key is not preferred across records. -/
theorem matcher_primary_preference_cex :
    findInventoryMatch [altMatchItem, priMatchItem] "C7" = some altMatchItem ∧
    jsTrim priMatchItem.partNo = jsTrim "C7" ∧
    jsTrim altMatchItem.partNo ≠ jsTrim "C7" := by
  refine ⟨by decide, by decide, by decide⟩

/-- Claim C4 as amended: the matcher returns the first stock record, in
stock-record order, whose trimmed partNo, itId or stId equals the trimmed
ledger code; the per-record disjunction carries no preference for the
unique code over the alternate identifiers. -/
theorem matcher_first_any_field (ps : List ShopItem) (code : String) (r : ShopItem)
    (h : findInventoryMatch ps code = some r) :
    (jsTrim r.partNo = jsTrim code ∨ jsTrim r.itId = jsTrim code
      ∨ jsTrim r.stId = jsTrim code) ∧
    ∃ as bs, ps = as ++ r :: bs ∧ ∀ p ∈ as,
      jsTrim p.partNo ≠ jsTrim code ∧ jsTrim p.itId ≠ jsTrim code
        ∧ jsTrim p.stId ≠ jsTrim code := by
  unfold findInventoryMatch at h
  rw [List.find?_eq_some] at h
  obtain ⟨hr, as, bs, heq, hall⟩ := h
  refine ⟨?_, as, bs, heq, ?_⟩
  · simpa [Bool.or_eq_true, beq_iff_eq, or_assoc] using hr
  · intro p hp
    have := hall p hp
    simpa [Bool.or_eq_true, beq_iff_eq, not_or, and_assoc] using this

/-- Witness for the amended C4 at a one-record list matched on the unique
code. -/
theorem matcher_first_any_field_witness :
    (jsTrim priMatchItem.partNo = jsTrim "C7" ∨ jsTrim priMatchItem.itId = jsTrim "C7"
      ∨ jsTrim priMatchItem.stId = jsTrim "C7") ∧
    ∃ as bs, [priMatchItem] = as ++ priMatchItem :: bs ∧ ∀ p ∈ as,
      jsTrim p.partNo ≠ jsTrim "C7" ∧ jsTrim p.itId ≠ jsTrim "C7"
        ∧ jsTrim p.stId ≠ jsTrim "C7" :=
  matcher_first_any_field [priMatchItem] "C7" priMatchItem (by decide)

/-- A record whose brand itself contains the dash used by the join key. -/
def joinItemA : ShopItem := { blankItem with brand := "a-b", model := "c" }

/-- A record with a different field split producing the same join key. -/
def joinItemB : ShopItem := { blankItem with brand := "a", model := "b-c" }

/-- Counterexample to C5: the two records differ in brand and in model
(and are trim-fixed), so their composite key tuples are not pairwise
equal, yet deduplication drops the second record — the dash-joined key
string is not injective in the four fields. -/
theorem dedup_composite_key_cex :
    dedupItems [joinItemA, joinItemB] = [joinItemA] ∧
    joinItemA.brand ≠ joinItemB.brand ∧ joinItemA.model ≠ joinItemB.model ∧
    jsTrim joinItemA.brand = joinItemA.brand ∧ jsTrim joinItemB.brand = joinItemB.brand ∧
    jsTrim joinItemA.model = joinItemA.model ∧ jsTrim joinItemB.model = joinItemB.model ∧
    joinItemA.size = joinItemB.size ∧ joinItemA.partNo = joinItemB.partNo := by
  refine ⟨by decide, by decide, by decide, by decide, by decide, by decide, by decide,
    by decide, by decide⟩

/-- Claim C5 as amended: deduplication keeps a record exactly when no
earlier record carries the same dash-joined key string
brand-model-size-partNo (so distinct field tuples whose joins coincide are
also treated as duplicates); the first occurrence wins and the output is a
sublist of the input, preserving the order of first occurrences. -/
theorem dedup_first_occurrence_by_key (items : List ShopItem) :
    dedupItems items = keepFirstByKey items ∧
    List.Sublist (dedupItems items) items := by
  refine ⟨?_, dedupGo_sublist items []⟩
  induction items using keepFirstByKey.induct with
  | case1 =>
    rw [keepFirstByKey]
    rfl
  | case2 x xs ih =>
    show dedupGo [] (x :: xs) = keepFirstByKey (x :: xs)
    rw [keepFirstByKey]
    simp only [dedupGo, List.contains_nil, Bool.false_eq_true, if_false, List.cons.injEq,
      true_and]
    rw [dedupGo_key_filter xs (dedupKey x) []]
    exact ih

/-- Claim C6: any row whose status-bearing column (last or second-to-last)
contains the discontinuation marker is excluded by the parser, and the
demo document with two valid rows and one discontinued row yields exactly
two records. -/
theorem parse_excludes_discontinued :
    (∀ cols : List Cell, 5 ≤ cols.length →
      (strIncludes (getText (cols.get? (cols.length - 1))) discontinuedMark
        || strIncludes (getText (cols.get? (cols.length - 2))) discontinuedMark) = true →
      parseRow cols = none) ∧
    (parseShopData [demoRowA, demoRowB, demoRowC]).length = 2 := by
  constructor
  · intro cols h5 hmark
    unfold parseRow
    rw [if_neg (by omega), if_pos hmark]
  · decide

/-- Witness for C6: the discontinued demo row is excluded by the row
parser. -/
theorem parse_excludes_discontinued_witness :
    parseRow demoRowB = none :=
  parse_excludes_discontinued.1 demoRowB (by decide) (by decide)

/-- The demo product used against C7. -/
def demoProduct : Product :=
  { id := "p1", brand := "B1", model := "M1", size := "245", type := "t", season := "summer" }

/-- The demo service state holding that one product. -/
def demoState : ServiceState := { products := [demoProduct], inventory := [] }

/-- A deterministic stand-in for the random part-number draw. -/
def zeroRand : Nat → Nat := fun _ => 0

/-- A fetched document that is a login page rather than a stock table. -/
def loginDoc : HtmlDoc := { rawText := "please login", rows := [] }

/-- Counterexample to C7: with a nonempty product store, a login-page
response yields the mock data set, which differs from the empty sequence
an actually failed fetch yields — a non-table response is not treated as
an empty fetch. -/
theorem login_page_not_empty_cex :
    fetchShopItems demoState zeroRand (.success loginDoc) ≠ [] ∧
    fetchShopItems demoState zeroRand .failure = [] := by
  refine ⟨by decide, rfl⟩

/-- Claim C7 as amended: a non-table (login-page) response makes the fetch
fall back to the mock data set generated from the service product store;
the result is the empty sequence exactly in the degenerate case of an
empty store (as when the service was never initialized), while an actual
fetch failure always yields the empty sequence. -/
theorem login_page_mock_fallback (st : ServiceState) (rand : Nat → Nat)
    (doc : HtmlDoc) (h : isLoginPage doc.rawText = true) :
    fetchShopItems st rand (.success doc) = generateMockShopData st rand ∧
    (st.products = [] → fetchShopItems st rand (.success doc) = []) ∧
    fetchShopItems st rand .failure = [] := by
  refine ⟨?_, ?_, rfl⟩
  · simp [fetchShopItems, h]
  · intro hp
    simp [fetchShopItems, h, generateMockShopData, hp]

/-- The empty service store. -/
def emptyState : ServiceState := { products := [], inventory := [] }

/-- Witness for the amended C7 at the empty store, where the mock fallback
coincides with the empty sequence. -/
theorem login_page_mock_fallback_witness :
    fetchShopItems emptyState zeroRand (.success loginDoc)
      = generateMockShopData emptyState zeroRand ∧
    (emptyState.products = [] → fetchShopItems emptyState zeroRand (.success loginDoc) = []) ∧
    fetchShopItems emptyState zeroRand .failure = [] :=
  login_page_mock_fallback emptyState zeroRand loginDoc (by decide)

/-- A product whose size is written in upper case. -/
def sizeUpperProd : Product :=
  { id := "p1", brand := "bb", model := "mm", size := "R18", type := "t", season := "s" }

/-- The same product with only the letter case of the size changed. -/
def sizeLowerProd : Product := { sizeUpperProd with size := "r18" }

/-- The search criteria querying for R18. -/
def sizeQueryCrit : Criteria :=
  { query := some "R18", brand := none, type := none, season := none }

/-- Counterexample to C8: two products identical except for the letter
case of the size field; the search includes the lower-case one and
excludes the upper-case one, because the size field is matched against
the lowercased query without being lowercased itself. -/
theorem search_size_case_cex :
    search { products := [sizeLowerProd], inventory := [] } sizeQueryCrit
      = [{ product := sizeLowerProd, storeStock := 0, warehouseStock := 0,
           price := 0, totalStock := 0 }] ∧
    search { products := [sizeUpperProd], inventory := [] } sizeQueryCrit = [] ∧
    jsLower sizeUpperProd.size = jsLower sizeLowerProd.size ∧
    sizeUpperProd.brand = sizeLowerProd.brand ∧
    sizeUpperProd.model = sizeLowerProd.model := by
  refine ⟨?_, ?_, by decide, by decide, by decide⟩
  · unfold search
    rw [show searchHits { products := [sizeLowerProd], inventory := [] } sizeQueryCrit
        = [{ product := sizeLowerProd, storeStock := 0, warehouseStock := 0,
             price := 0, totalStock := 0 }] from by decide]
    rw [List.mergeSort_singleton]
  · unfold search
    rw [show searchHits { products := [sizeUpperProd], inventory := [] } sizeQueryCrit
        = [] from by decide]
    rw [List.mergeSort_nil]

/-- Claim C8 as amended: the free-text filter is case-insensitive in the
query and in the model and brand fields (both sides lowercased), but the
size field is compared as stored against the lowercased query, so only
size comparisons are sensitive to the letter case of the product field. -/
theorem search_case_insensitive_model_brand (p1 p2 : Product) (q1 q2 : String)
    (hsize : p1.size = p2.size) (hmodel : jsLower p1.model = jsLower p2.model)
    (hbrand : jsLower p1.brand = jsLower p2.brand) (hq : jsLower q1 = jsLower q2) :
    searchMatchesQuery p1 (jsLower q1) = searchMatchesQuery p2 (jsLower q2) := by
  unfold searchMatchesQuery
  rw [hsize, hmodel, hbrand, hq]

/-- A product differing from the lower-size one only in the case of model
and brand. -/
def caseVariantProd : Product := { sizeLowerProd with brand := "BB", model := "MM" }

/-- Witness for the amended C8: changing the case of query, model and
brand together leaves the match outcome unchanged. -/
theorem search_case_insensitive_model_brand_witness :
    searchMatchesQuery sizeLowerProd (jsLower "R18")
      = searchMatchesQuery caseVariantProd (jsLower "r18") :=
  search_case_insensitive_model_brand sizeLowerProd caseVariantProd "R18" "r18"
    (by decide) (by decide) (by decide) (by decide)

/-- Claim C9: placeOrder fails with the record-not-found error when no
inventory record matches the product and source, fails with the
insufficient-stock error when the matched record holds less than the
requested quantity — in both cases returning the inventory unchanged —
and on success decrements exactly the matched record by the quantity,
returning ok regardless of the reorder threshold: the low-stock flag is
advisory and never blocks the operation. -/
theorem placeOrder_atomic_spec (inv : List InvRecord) (pid : String) (qty : Int)
    (src : String) :
    (inv.find? (fun i => i.productId == pid && i.type == src) = none →
      placeOrder inv pid qty src = (.error .recordNotFound, inv)) ∧
    (∀ r, inv.find? (fun i => i.productId == pid && i.type == src) = some r →
      (r.stockQty < qty → placeOrder inv pid qty src = (.error .insufficientStock, inv)) ∧
      (qty ≤ r.stockQty → ∃ as bs, inv = as ++ r :: bs ∧
        placeOrder inv pid qty src
          = (.ok (decide (r.stockQty - qty ≤ r.reorderPoint)),
             as ++ { r with stockQty := r.stockQty - qty } :: bs))) := by
  constructor
  · intro h
    simp [placeOrder, h]
  · intro r hr
    have hfind := hr
    constructor
    · intro hlt
      simp [placeOrder, hr, hlt]
    · intro hge
      rw [List.find?_eq_some] at hfind
      obtain ⟨hpred, as, bs, heq, hall⟩ := hfind
      refine ⟨as, bs, heq, ?_⟩
      have hdec : decrementFirst pid src qty inv
          = as ++ { r with stockQty := r.stockQty - qty } :: bs := by
        rw [heq]
        refine decrementFirst_append pid src qty r bs as (fun a ha => ?_) hpred
        have h2 := hall a ha
        cases hb : (a.productId == pid && a.type == src) with
        | false => rfl
        | true =>
          rw [hb] at h2
          exact absurd h2 (by decide)
      simp only [placeOrder, hr]
      rw [if_neg (not_lt.mpr hge), hdec]

/-- The inventory record used by the C9 witness. -/
def wInvRec : InvRecord :=
  { productId := "p1", type := "store", stockQty := 10, reorderPoint := 3, cost := 0 }

/-- Witness for C9: a successful order of 4 units against a stock of 10
decrements the record to 6 and succeeds. -/
theorem placeOrder_atomic_spec_witness :
    ∃ as bs, [wInvRec] = as ++ wInvRec :: bs ∧
      placeOrder [wInvRec] "p1" 4 "store"
        = (.ok (decide (wInvRec.stockQty - 4 ≤ wInvRec.reorderPoint)),
           as ++ { wInvRec with stockQty := wInvRec.stockQty - 4 } :: bs) :=
  ((placeOrder_atomic_spec [wInvRec] "p1" 4 "store").2 wInvRec (by decide)).2 (by decide)

/-- Claim C10: the numeric extraction strips every non-digit character
(signs included), a field with no digits parses to 0, and consequently
every record the parser emits carries a non-negative total stock and a
non-negative supply price. -/
theorem parse_numeric_nonneg :
    (∀ (rows : List (List Cell)) (r : ShopItem), r ∈ parseShopData rows →
      0 ≤ r.totalStock ∧ 0 ≤ r.supplyPrice) ∧
    (∀ s : String, (∀ c ∈ s.data, c.isDigit = false) → parseNum s = 0) ∧
    parseNum "-42" = 42 ∧ parseNum "abc" = 0 := by
  refine ⟨?_, ?_, by decide, by decide⟩
  · intro rows r hr
    unfold parseShopData at hr
    split at hr
    · simp at hr
    · have hr2 : r ∈ rows.filterMap parseRow :=
        List.Sublist.mem hr (dedupGo_sublist (rows.filterMap parseRow) [])
      rw [List.mem_filterMap] at hr2
      obtain ⟨cols, _, hp⟩ := hr2
      unfold parseRow at hp
      split at hp
      · exact absurd hp (by simp)
      · split at hp
        · exact absurd hp (by simp)
        · injection hp with hX
          subst hX
          exact ⟨parseNum_nonneg _, parseNum_nonneg _⟩
  · intro s h
    unfold parseNum
    have hnil : s.data.filter Char.isDigit = [] :=
      List.filter_eq_nil_iff.mpr (fun c hc => by simp [h c hc])
    rw [hnil]
    rfl

/-- Witness for C10 at the record parsed from the first demo row. -/
theorem parse_numeric_nonneg_witness :
    0 ≤ parsedItemA.totalStock ∧ 0 ≤ parsedItemA.supplyPrice :=
  parse_numeric_nonneg.1 [demoRowA] parsedItemA (by decide)

end DDWT
